import Mathlib

/-!
Verification of the Video-Musique export pipeline (src-tauri/src/models.rs and
src-tauri/src/ffmpeg.rs) against its natural-language specification.

Conventions of the embedding:
* Rust `f64` values (durations, volumes, crossfade lengths) are modelled as `Rat`.
  All operations the code performs on them (addition, subtraction, `min`, `max`,
  multiplication, division by constants) are exact on rationals.
* Rust `as i32` casts are modelled by truncation toward zero (`f64_as_i32`);
  i32 saturation is not modelled (all inputs of interest are small).
* Fallible code is modelled with `Option`: in particular `clips[0]` on an empty
  slice panics in Rust, which the embedding renders as `none`.
* Stateful code (`&mut self`, the global cancel flag, the child process and the
  output file) is modelled by explicit state passing.
-/

/-- `AudioTrack` from models.rs. -/
structure AudioTrack where
  path : String
  volume : Rat
  name : String
  duration : Rat
  mute : Bool
  solo : Bool
deriving DecidableEq

/-- `AudioTrack::get_effective_volume` from models.rs:
`if self.mute { 0.0 } else { self.volume.min(1.1) }`. -/
def AudioTrack.get_effective_volume (t : AudioTrack) : Rat :=
  if t.mute then 0 else min t.volume (11/10)

/-- `VideoClip` from models.rs. -/
structure VideoClip where
  path : String
  name : String
  duration : Rat
deriving DecidableEq

/-- `ProjectSettings` from models.rs. -/
structure ProjectSettings where
  include_video_audio : Bool
  include_music : Bool
  audio_crossfade : Rat
  video_crossfade : Rat
  cut_music_at_end : Bool
  video_volume : Rat
  music_volume : Rat
  use_gpu : Bool
  speed_preset : String
deriving DecidableEq

/-- `ProjectSettings::default` from models.rs. -/
def ProjectSettings.default : ProjectSettings where
  include_video_audio := true
  include_music := true
  audio_crossfade := 10
  video_crossfade := 1
  cut_music_at_end := false
  video_volume := 100
  music_volume := 70
  use_gpu := true
  speed_preset := "balanced"

/-- `Project` from models.rs. -/
structure Project where
  videos : List VideoClip
  audio_tracks : List AudioTrack
  settings : ProjectSettings
deriving DecidableEq

/-- `Project::get_active_tracks` from models.rs: early return for an empty track
list; otherwise, if any solo-flagged track exists, the solo tracks minus the muted
ones; otherwise all unmuted tracks. -/
def Project.get_active_tracks (p : Project) : List AudioTrack :=
  if p.audio_tracks.isEmpty then []
  else
    let solos := p.audio_tracks.filter (fun t => t.solo)
    if !solos.isEmpty then solos.filter (fun t => !t.mute)
    else p.audio_tracks.filter (fun t => !t.mute)

/-- `Project::get_video_duration` from models.rs:
`(base - crossfade * max(len - 1, 0)).max(0)` for a non-empty clip list, else 0. -/
def Project.get_video_duration (p : Project) : Rat :=
  if p.videos.isEmpty then 0
  else
    let base := (p.videos.map VideoClip.duration).sum
    let overlap := p.settings.video_crossfade * max ((p.videos.length : Rat) - 1) 0
    max (base - overlap) 0

/-- `Project::get_music_duration` from models.rs. -/
def Project.get_music_duration (p : Project) : Rat :=
  (p.get_active_tracks.map AudioTrack.duration).sum

/-- Spec wording for claim C2: total video duration is `sum(d) - c*(N-1)` floored
at 0, and 0 when there are no clips. -/
def spec_total_video_duration (p : Project) : Rat :=
  if p.videos.isEmpty then 0
  else
    max ((p.videos.map VideoClip.duration).sum
      - p.settings.video_crossfade * ((p.videos.length : Rat) - 1)) 0

/-- Spec wording for claim C4: solo tracks only when a solo track exists *and is
unmuted*; otherwise all unmuted tracks. -/
def spec_active_tracks (p : Project) : List AudioTrack :=
  if p.audio_tracks.any (fun t => t.solo && !t.mute) then
    (p.audio_tracks.filter (fun t => t.solo)).filter (fun t => !t.mute)
  else p.audio_tracks.filter (fun t => !t.mute)

/-- Spec wording for claim C5: effective volume is 0 when muted, otherwise the
stored volume clamped into the 0.0–1.1 range (two-sided clamp). -/
def spec_effective_volume (t : AudioTrack) : Rat :=
  if t.mute then 0 else max 0 (min t.volume (11/10))

/-! ## ffmpeg.rs: filter-graph synthesis -/

/-- Rust `f64 as i32` (truncation toward zero), as used on
`settings.audio_crossfade` in `build_export_command` (ffmpeg.rs:395).
i32 range saturation is not modelled. -/
def f64_as_i32 (q : Rat) : Int :=
  Int.tdiv q.num (q.den : Int)

/-- One per-track volume node of `build_audio_crossfade_filter` (ffmpeg.rs:278):
`[{base+i}:a]volume={vol}[ma{i}]`. -/
def volume_part (idx : Nat) (vol : Rat) (i : Nat) : String :=
  "[" ++ toString idx ++ ":a]volume=" ++ toString vol ++ "[ma" ++ toString i ++ "]"

/-- The per-track volume nodes of `build_audio_crossfade_filter`
(`tracks.iter().enumerate().map(...)`), with the running enumeration index `i`. -/
def audio_norm_parts (base : Nat) : Nat → List AudioTrack → List String
  | _, [] => []
  | i, t :: ts =>
    volume_part (base + i) (if t.mute then 0 else min t.volume (11/10)) i
      :: audio_norm_parts base (i + 1) ts

/-- One audio crossfade node of `build_audio_crossfade_filter` (ffmpeg.rs:290):
`[{prev}][ma{j}]acrossfade=d={d}:c1=qsin:c2=qsin[mx{j}]`. -/
def across_part_a (prev : String) (j : Nat) (d : Int) : String :=
  "[" ++ prev ++ "][ma" ++ toString j ++ "]acrossfade=d=" ++ toString d
    ++ ":c1=qsin:c2=qsin[mx" ++ toString j ++ "]"

/-- The fold loop `for j in 1..n` of `build_audio_crossfade_filter`: the third
argument counts the remaining iterations (`n - j`). Returns the pushed parts and
the final `prev` tag name. -/
def audioFold (d : Int) : String → Nat → Nat → List String × String
  | prev, _, 0 => ([], prev)
  | prev, j, k + 1 =>
    let r := audioFold d ("mx" ++ toString j) (j + 1) k
    (across_part_a prev j d :: r.1, r.2)

/-- `build_audio_crossfade_filter` (ffmpeg.rs:271-298), kept at the level of the
`parts` vector (the source joins it with ";" on return). Returns the parts and
the terminal audio tag. -/
def audio_filter_parts (tracks : List AudioTrack) (d : Int) (base : Nat) :
    List String × String :=
  let parts := audio_norm_parts base 0 tracks
  if tracks.length == 1 then (parts, "[ma0]")
  else
    let r := audioFold d "ma0" 1 (tracks.length - 1)
    (parts ++ r.1, "[" ++ r.2 ++ "]")

/-- `build_audio_crossfade_filter`, joined form as returned by the source. -/
def build_audio_crossfade_filter (tracks : List AudioTrack) (d : Int) (base : Nat) :
    String × String :=
  let r := audio_filter_parts tracks d base
  (String.intercalate ";" r.1, r.2)

/-- One video crossfade node of `build_video_crossfade_filter` (ffmpeg.rs:321):
`[{pv}][v{j}]xfade=transition=fade:duration={c}:offset={off}[vx{j}]`. -/
def xfade_part (pv : String) (j : Nat) (c off : Rat) : String :=
  "[" ++ pv ++ "][v" ++ toString j ++ "]xfade=transition=fade:duration="
    ++ toString c ++ ":offset=" ++ toString off ++ "[vx" ++ toString j ++ "]"

/-- One audio-leg crossfade node of `build_video_crossfade_filter` (ffmpeg.rs:325):
`[{pa}][va{j}]acrossfade=d={c}:c1=qsin:c2=qsin[vax{j}]`. -/
def across_part_v (pa : String) (j : Nat) (c : Rat) : String :=
  "[" ++ pa ++ "][va" ++ toString j ++ "]acrossfade=d=" ++ toString c
    ++ ":c1=qsin:c2=qsin[vax" ++ toString j ++ "]"

/-- The normalization nodes of `build_video_crossfade_filter`
(`for i in 0..n`, pushing a format node and an anull node per clip). -/
def video_norm_parts : Nat → List String
  | 0 => []
  | n + 1 =>
    video_norm_parts n
      ++ ["[" ++ toString n ++ ":v]format=yuv420p,setsar=1[v" ++ toString n ++ "]",
          "[" ++ toString n ++ ":a]anull[va" ++ toString n ++ "]"]

/-- The fold loop `for j in 1..n` of `build_video_crossfade_filter` over the
clips after the first: carries the clip index `j`, the running offset
accumulator `acc`, and the previous video/audio tag names. The offset of the
transition folded at `j` is `max (acc - c) 0`; afterwards `acc` grows by
`max (clip_j.duration - c) 0`. Returns the pushed parts and the final tags. -/
def videoFold (c : Rat) : Nat → Rat → String → String → List VideoClip →
    List String × String × String
  | _, _, pv, pa, [] => ([], pv, pa)
  | j, acc, pv, pa, clip :: rest =>
    let r := videoFold c (j + 1) (acc + max (clip.duration - c) 0)
      ("vx" ++ toString j) ("vax" ++ toString j) rest
    (xfade_part pv j c (max (acc - c) 0) :: across_part_v pa j c :: r.1, r.2.1, r.2.2)

/-- `build_video_crossfade_filter` (ffmpeg.rs:300-335) at the level of the
`parts` vector. For an empty clip list the source evaluates `clips[0].duration`
and panics (index out of bounds); this is modelled as `none`. Returns the parts,
the terminal video tag and the terminal audio tag. -/
def video_filter_parts (clips : List VideoClip) (c : Rat) :
    Option (List String × String × String) :=
  match clips with
  | [] => none
  | [_] => some (video_norm_parts 1, "[v0]", "[va0]")
  | c0 :: rest =>
    let r := videoFold c 1 c0.duration "v0" "va0" rest
    some (video_norm_parts (rest.length + 1) ++ r.1,
      "[" ++ r.2.1 ++ "]", "[" ++ r.2.2 ++ "]")

/-- `build_video_crossfade_filter`, joined form as returned by the source. -/
def build_video_crossfade_filter (clips : List VideoClip) (c : Rat) :
    Option (String × String × String) :=
  (video_filter_parts clips c).map (fun r => (String.intercalate ";" r.1, r.2.1, r.2.2))

/-! ## ffmpeg.rs: capability detection -/

/-- The host environment seen by `detect_gpu_encoder`: whether
`ffmpeg -encoders` ran (`output().ok()`), the encoder names its output
advertises, and the outcome of the synthetic probe `test_gpu_encoder` for
each (encoder, gpu_type) pair. -/
structure GpuEnv where
  list_ok : Bool
  encoders : List String
  test_ok : String → String → Bool

/-- `FFmpegProcessor` state from ffmpeg.rs (the duration cache is carried but
unused by the claims under verification). -/
structure FFmpegProcessor where
  duration_cache : List (String × Rat)
  available_gpu_encoder : Option String
  gpu_checked : Bool

/-- `FFmpegProcessor::new`. -/
def FFmpegProcessor.new : FFmpegProcessor where
  duration_cache := []
  available_gpu_encoder := none
  gpu_checked := false

/-- The fixed candidate list of `detect_gpu_encoder` (ffmpeg.rs:101-106). -/
def gpu_checks : List (String × String) :=
  [("nvidia", "h264_nvenc"), ("intel", "h264_qsv"), ("amd", "h264_amf"),
   ("vaapi", "h264_vaapi")]

/-- The probe loop of `detect_gpu_encoder`: scans the candidate list in order,
running the synthetic probe only for advertised encoders, and stops at the
first success. Also counts how many synthetic probes were invoked. -/
def scan_checks (env : GpuEnv) : List (String × String) → Option String × Nat
  | [] => (none, 0)
  | ge :: rest =>
    if env.encoders.contains ge.2 then
      if env.test_ok ge.2 ge.1 then (some ge.1, 1)
      else
        let r := scan_checks env rest
        (r.1, r.2 + 1)
    else scan_checks env rest

/-- `FFmpegProcessor::detect_gpu_encoder` (ffmpeg.rs:87-116): memoized on
`gpu_checked`; on the first call sets `gpu_checked`, early-returns `none` if
`ffmpeg -encoders` failed, otherwise scans the candidates and records a success
in `available_gpu_encoder`. The third component counts synthetic probe
invocations performed by the call. -/
def detect_gpu_encoder (env : GpuEnv) (s : FFmpegProcessor) :
    Option String × FFmpegProcessor × Nat :=
  if s.gpu_checked then (s.available_gpu_encoder, s, 0)
  else
    let s1 := { s with gpu_checked := true }
    if env.list_ok then
      let r := scan_checks env gpu_checks
      match r.1 with
      | some g => (some g, { s1 with available_gpu_encoder := some g }, r.2)
      | none => (none, s1, r.2)
    else (none, s1, 0)

/-- The gpu-type → encoder-name mapping used by `get_gpu_info` and
`export_project` (with `unwrap_or("libx264")`). -/
def encoder_name : Option String → String
  | some g =>
    if g = "nvidia" then "h264_nvenc"
    else if g = "amd" then "h264_amf"
    else if g = "intel" then "h264_qsv"
    else if g = "vaapi" then "h264_vaapi"
    else "libx264"
  | none => "libx264"

/-! ## ffmpeg.rs: command synthesis -/

/-- `get_encoder_config` (ffmpeg.rs:236-269): encoder name, optional preset
flag name, and the preset table (an association list standing in for the
`HashMap`, which the source only reads pointwise). -/
def get_encoder_config (gpu_type : String) :
    String × Option String × List (String × String) :=
  if gpu_type = "nvidia" then
    ("h264_nvenc", some "-preset",
     [("ultrafast", "p1"), ("fast", "p4"), ("balanced", "p5"), ("quality", "p7")])
  else if gpu_type = "amd" then
    ("h264_amf", some "-quality",
     [("ultrafast", "speed"), ("fast", "balanced"), ("balanced", "balanced"),
      ("quality", "quality")])
  else if gpu_type = "intel" then
    ("h264_qsv", some "-preset",
     [("ultrafast", "veryfast"), ("fast", "fast"), ("balanced", "medium"),
      ("quality", "veryslow")])
  else if gpu_type = "vaapi" then ("h264_vaapi", none, [])
  else
    ("libx264", some "-preset",
     [("ultrafast", "ultrafast"), ("fast", "veryfast"), ("balanced", "medium"),
      ("quality", "slow")])

/-- `HashMap::get` on the preset table. -/
def lookup_preset (table : List (String × String)) (k : String) : Option String :=
  (table.find? (fun pr => pr.1 == k)).map (fun pr => pr.2)

/-- The hardware-acceleration pre-input flags of `build_export_command`
(ffmpeg.rs:366-373); `amd` and unknown families add nothing. -/
def hw_flags : Option String → List String
  | some g =>
    if g = "nvidia" then ["-hwaccel", "cuda"]
    else if g = "intel" then ["-hwaccel", "qsv"]
    else if g = "vaapi" then ["-vaapi_device", "/dev/dri/renderD128"]
    else []
  | none => []

/-- The codec/quality argument block of `build_export_command`
(ffmpeg.rs:434-468). -/
def codec_args (output_path : String) (must_reencode : Bool)
    (gpu_type : Option String) (preview_seconds : Option Int)
    (speed_preset : String) : List String :=
  if output_path.toLower.endsWith ".webm" then
    ["-c:v", "libvpx-vp9", "-b:v", "0", "-crf", "30", "-c:a", "libvorbis"]
  else
    (if must_reencode then
      let eff := if preview_seconds.isSome then "ultrafast" else speed_preset
      match gpu_type with
      | some gt =>
        let ec := get_encoder_config gt
        ["-c:v", ec.1]
          ++ (match ec.2.1, lookup_preset ec.2.2 eff with
              | some flag, some v => [flag, v]
              | _, _ => [])
          ++ (if gt = "nvidia" then ["-rc", "vbr", "-cq", "20", "-b:v", "0"]
              else if gt = "amd" then
                ["-rc", "vbr_latency", "-qp_p", "20", "-qp_i", "20"]
              else if gt = "intel" then
                ["-global_quality", "20", "-look_ahead", "1"]
              else ["-qp", "20"])
      | none =>
        let ec := get_encoder_config "cpu"
        ["-c:v", ec.1]
          ++ (match ec.2.1, lookup_preset ec.2.2 eff with
              | some flag, some v => [flag, v]
              | _, _ => [])
          ++ ["-crf", "20"]
    else ["-c:v", "copy"])
      ++ ["-c:a", "aac", "-b:a", "192k"]

/-- The active-track selection inlined in `build_export_command`
(ffmpeg.rs:349-358): the same solo/mute rule as `Project::get_active_tracks`,
guarded by `settings.include_music`. -/
def bec_active_tracks (project : Project) : List AudioTrack :=
  if project.settings.include_music then
    let solos := project.audio_tracks.filter (fun t => t.solo)
    if !solos.isEmpty then solos.filter (fun t => !t.mute)
    else project.audio_tracks.filter (fun t => !t.mute)
  else []

/-- The audio-branch invocation of `build_export_command` (ffmpeg.rs:393-395):
base input index = number of video clips, crossfade duration =
`settings.audio_crossfade as i32`. -/
def bec_audio_parts (project : Project) : List String × String :=
  audio_filter_parts (bec_active_tracks project)
    (f64_as_i32 project.settings.audio_crossfade) project.videos.length

/-- The music section of the filter complex (ffmpeg.rs:391-404): the joined
audio-branch filter plus the optional end trim; returns the pushed parts and
`tag_music` (empty when there is no active track). -/
def bec_fc_audio (project : Project) : List String × String :=
  if (bec_active_tracks project).isEmpty then ([], "")
  else
    let ar := bec_audio_parts project
    let cf := String.intercalate ";" ar.1
    if project.settings.cut_music_at_end then
      ([cf, ar.2 ++ "atrim=duration=" ++ toString project.get_video_duration ++ "[mus]"],
       "[mus]")
    else ([cf], ar.2)

/-- The final audio selection of `build_export_command` (ffmpeg.rs:407-419):
returns the pushed mix part (if any) and `tag_final_audio`. -/
def bec_mix (project : Project) (tag_music : String) : List String × String :=
  if project.settings.include_video_audio && !(tag_music == "") then
    (["[va]" ++ tag_music ++ "amix=inputs=2:duration=longest:dropout_transition=0[aout]"],
     "[aout]")
  else if project.settings.include_video_audio then ([], "[va]")
  else if !(tag_music == "") then ([], tag_music)
  else ([], "")

/-- The argument-vector suffix of `build_export_command` after the input list
(ffmpeg.rs:384-475): filter complex, stream maps, codec flags, preview trim and
output path, in source order. -/
def bec_tail_args (project : Project) (output_path : String)
    (preview_seconds : Option Int) (speed_preset : String)
    (gpu_type : Option String) (vres : List String × String × String) : List String :=
  let must_reencode := decide (1 < project.videos.length)
    || decide (0 < project.settings.video_crossfade)
  let fcA := bec_fc_audio project
  let mix := bec_mix project fcA.2
  let fc_parts := [String.intercalate ";" vres.1,
      vres.2.2 ++ "volume=" ++ toString (project.settings.video_volume / 100) ++ "[va]"]
    ++ fcA.1 ++ mix.1
  (if fc_parts.isEmpty then [] else
      ["-filter_complex", String.intercalate ";" fc_parts])
    ++ ["-map", if !(vres.2.1 == "") then vres.2.1 else "0:v:0"]
    ++ (if !(mix.2 == "") then ["-map", mix.2] else ["-an"])
    ++ codec_args output_path must_reencode gpu_type preview_seconds speed_preset
    ++ (match preview_seconds with
        | some secs => ["-t", toString secs]
        | none => [])
    ++ [output_path]

/-- The pure part of `build_export_command` (ffmpeg.rs:337-476), given the
already-resolved gpu family: assembles the full argument vector in source
order — program name, hardware flags, one input per video clip, one input per
active audio track, then the tail. `none` models the panic of
`build_video_crossfade_filter` on an empty clip list. -/
def build_cmd_pure (project : Project) (output_path : String)
    (preview_seconds : Option Int) (speed_preset : String)
    (gpu_type : Option String) : Option (List String) :=
  match video_filter_parts project.videos project.settings.video_crossfade with
  | none => none
  | some vres =>
    some (["ffmpeg", "-y"] ++ hw_flags gpu_type
      ++ project.videos.flatMap (fun v => ["-i", v.path])
      ++ (bec_active_tracks project).flatMap (fun t => ["-i", t.path])
      ++ bec_tail_args project output_path preview_seconds speed_preset gpu_type vres)

/-- `build_export_command` (ffmpeg.rs:337-476): resolves the gpu family through
the memoized cache when `use_gpu` is set, then assembles the argument vector.
Returns the vector (or `none` for the empty-clip panic) and the processor
state after the call. -/
def build_export_command (env : GpuEnv) (s : FFmpegProcessor) (project : Project)
    (output_path : String) (preview_seconds : Option Int) (use_gpu : Bool)
    (speed_preset : String) : Option (List String) × FFmpegProcessor :=
  let det := if use_gpu then detect_gpu_encoder env s else (none, s, 0)
  (build_cmd_pure project output_path preview_seconds speed_preset det.1, det.2.1)

/-! ## ffmpeg.rs: export supervisor -/

/-- `ExportResult` from ffmpeg.rs (`duration_seconds` is wall-clock time and is
not modelled). -/
structure ExportResult where
  success : Bool
  cancelled : Bool
  error : Option String
  encoder : Option String
  gpu_accelerated : Bool
deriving DecidableEq

/-- The world affected by the supervisor: the child process and the output
file at the targeted path. -/
structure WorldState where
  child_alive : Bool
  output_exists : Bool
deriving DecidableEq

/-- The progress-line match `out_time_ms=(\d+)` of `export_project`
(ffmpeg.rs:514,543-544): first occurrence of the marker followed by at least
one digit. -/
def parse_out_time (line : String) : Option Nat :=
  match line.splitOn "out_time_ms=" with
  | _ :: seg :: _ =>
    let digits := seg.takeWhile Char.isDigit
    if digits.isEmpty then none else digits.toNat?
  | _ => none

/-- The progress percentage emitted per matching line (ffmpeg.rs:545),
`min (pos / total_ms * 100) 100`, in exact rational arithmetic. -/
def progress_value (total_ms : Rat) (pos : Nat) : Rat :=
  min ((pos : Rat) / total_ms * 100) 100

/-- The progress loop of `export_project` (ffmpeg.rs:527-549). `flag i` is the
value the global `CANCEL_FLAG` load returns at the check preceding the `i`-th
line. On a set flag: the child is killed, the output file is removed if
present, and the cancel result is returned; otherwise a matching line appends
a progress event. Returns the early result (if any), the final world state and
the emitted events. -/
def export_loop (flag : Nat → Bool) (cancel_result : ExportResult)
    (total_ms : Rat) : Nat → List String → WorldState → List Rat →
    Option ExportResult × WorldState × List Rat
  | _, [], w, evs => (none, w, evs)
  | i, line :: rest, w, evs =>
    if flag i then
      let w1 : WorldState := { child_alive := false, output_exists := w.output_exists }
      let w2 : WorldState :=
        if w1.output_exists then { w1 with output_exists := false } else w1
      (some cancel_result, w2, evs)
    else
      match parse_out_time line with
      | some pos =>
        export_loop flag cancel_result total_ms (i + 1) rest w
          (evs ++ [progress_value total_ms pos])
      | none => export_loop flag cancel_result total_ms (i + 1) rest w evs

/-- `export_project` (ffmpeg.rs:478-561): clears the cancel flag (the `flag`
oracle gives the values subsequent loads observe), resolves the gpu family for
reporting, builds the command (whose own resolution hits the memoized cache),
spawns the child (`spawn_ok` says whether the spawn succeeded), runs the
progress loop, and on normal stream end waits for the exit status. `none`
models the panic propagated from an empty clip list. -/
def export_project (env : GpuEnv) (s : FFmpegProcessor) (flag : Nat → Bool)
    (project : Project) (output_path : String) (use_gpu : Bool)
    (speed_preset : String) (spawn_ok : Bool) (lines : List String)
    (exit_ok : Bool) (exit_code : Int) (w : WorldState) :
    Option (Except String (ExportResult × WorldState × List Rat)) × FFmpegProcessor :=
  let det := if use_gpu then detect_gpu_encoder env s else (none, s, 0)
  let gpu_type := det.1
  let enc := encoder_name gpu_type
  let b := build_export_command env det.2.1 project output_path none use_gpu speed_preset
  match b.1 with
  | none => (none, b.2)
  | some _cmd =>
    if spawn_ok then
      let cancel_result : ExportResult :=
        { success := false, cancelled := true, error := none,
          encoder := some enc, gpu_accelerated := gpu_type.isSome }
      let total_ms := project.get_video_duration * 1000
      let r := export_loop flag cancel_result total_ms 0 lines
        { w with child_alive := true } []
      match r.1 with
      | some res => (some (Except.ok (res, r.2.1, r.2.2)), b.2)
      | none =>
        (some (Except.ok (
          { success := exit_ok, cancelled := false,
            error := if exit_ok then none
              else some ("FFmpeg a termine avec le code " ++ toString exit_code),
            encoder := some enc, gpu_accelerated := gpu_type.isSome },
          { r.2.1 with child_alive := false }, r.2.2)), b.2)
    else (some (Except.error "Impossible de lancer ffmpeg"), b.2)

/-! ## Spec-side definitions for the crossfade-offset claim -/

/-- Spec wording for claim C1: the running total starts at clip 0's duration
and accumulates `max (duration - crossfade) 0` per folded clip. -/
def spec_acc (c : Rat) (d0 : Rat) (ds : List Rat) : Rat :=
  ds.foldl (fun a d => a + max (d - c) 0) d0

/-- Claim C2: for every Project, the total video duration equals
`sum(d) - c*(N-1)` floored at 0 (and 0 with no clips), and is never negative. -/
theorem get_video_duration_spec (p : Project) :
    p.get_video_duration = spec_total_video_duration p ∧ 0 ≤ p.get_video_duration := by
  constructor
  · unfold Project.get_video_duration spec_total_video_duration
    by_cases h : p.videos.isEmpty
    · simp [h]
    · simp only [h, if_neg, Bool.false_eq_true, ite_false]
      have hlen : 1 ≤ p.videos.length := by
        cases hv : p.videos with
        | nil => simp [hv] at h
        | cons a l => simp [hv]
      have : max ((p.videos.length : Rat) - 1) 0 = (p.videos.length : Rat) - 1 := by
        apply max_eq_left
        have : (1 : Rat) ≤ (p.videos.length : Rat) := by exact_mod_cast hlen
        linarith
      rw [this]
  · unfold Project.get_video_duration
    by_cases h : p.videos.isEmpty
    · simp [h]
    · simp only [h, Bool.false_eq_true, ite_false]
      exact le_max_right _ _

/-- Helper: the `k`-th per-track volume node of the audio branch carries the
track's effective volume and the input index `base + k`. -/
theorem audio_norm_parts_get (base : Nat) :
    ∀ (tracks : List AudioTrack) (i0 k : Nat) (h : k < tracks.length),
      (audio_norm_parts base i0 tracks).get? k =
        some (volume_part (base + (i0 + k))
          ((tracks.get ⟨k, h⟩).get_effective_volume) (i0 + k)) := by
  intro tracks
  induction tracks with
  | nil => intro i0 k h; simp at h
  | cons t ts ih =>
    intro i0 k h
    cases k with
    | zero =>
      simp [audio_norm_parts, AudioTrack.get_effective_volume]
    | succ k' =>
      have h' : k' < ts.length := by simpa using h
      show (audio_norm_parts base (i0 + 1) ts).get? k' = _
      rw [ih (i0 + 1) k' h']
      have e : i0 + 1 + k' = i0 + (k' + 1) := by omega
      simp [e]

/-- Claim C4 (counterexample): with one muted solo track and one plain track,
the code returns the empty active set, while the claim's rule ("solo tracks
only when a solo track exists and is unmuted, otherwise all unmuted tracks")
selects the plain track. -/
theorem get_active_tracks_muted_solo_counterexample :
    Project.get_active_tracks
        ⟨[], [⟨"A", 1, "A", 0, true, true⟩, ⟨"B", 1, "B", 0, false, false⟩],
         ProjectSettings.default⟩ ≠
      spec_active_tracks
        ⟨[], [⟨"A", 1, "A", 0, true, true⟩, ⟨"B", 1, "B", 0, false, false⟩],
         ProjectSettings.default⟩ := by
  decide

/-- Claim C4 (amended): the active set is the solo tracks minus the muted ones
whenever any solo-flagged track exists (even if every solo track is muted), and
otherwise all unmuted tracks; the Command Synthesizer applies the same rule
when include-music is on; the claim's two concrete examples hold. -/
theorem get_active_tracks_amended (p : Project) :
    (p.get_active_tracks =
      if (p.audio_tracks.filter (fun t => t.solo)).isEmpty then
        p.audio_tracks.filter (fun t => !t.mute)
      else (p.audio_tracks.filter (fun t => t.solo)).filter (fun t => !t.mute))
    ∧ (bec_active_tracks p =
        if p.settings.include_music then p.get_active_tracks else [])
    ∧ Project.get_active_tracks
        ⟨[], [⟨"A", 1, "A", 0, false, true⟩, ⟨"B", 1, "B", 0, false, false⟩,
          ⟨"C", 1, "C", 0, true, false⟩], ProjectSettings.default⟩ =
        [⟨"A", 1, "A", 0, false, true⟩]
    ∧ Project.get_active_tracks
        ⟨[], [⟨"A", 1, "A", 0, false, false⟩, ⟨"B", 1, "B", 0, true, false⟩],
         ProjectSettings.default⟩ =
        [⟨"A", 1, "A", 0, false, false⟩] := by
  refine ⟨?_, ?_, by decide, by decide⟩
  · unfold Project.get_active_tracks
    by_cases he : p.audio_tracks.isEmpty
    · have hnil : p.audio_tracks = [] := List.isEmpty_iff.mp he
      simp [hnil]
    · simp only [he, Bool.false_eq_true, ite_false]
      by_cases hs : (p.audio_tracks.filter (fun t => t.solo)).isEmpty
      · simp [hs]
      · simp [hs]
  · by_cases hm : p.settings.include_music
    · unfold bec_active_tracks Project.get_active_tracks
      by_cases he : p.audio_tracks.isEmpty
      · have hnil : p.audio_tracks = [] := List.isEmpty_iff.mp he
        simp [hnil, hm]
      · simp only [hm, if_true, he, Bool.false_eq_true, ite_false]
    · have hm' : p.settings.include_music = false := by simpa using hm
      simp [bec_active_tracks, hm']

/-- Claim C5 (counterexample): a stored volume of −1 on an unmuted track passes
through unchanged, while the claim's "clamped into the 0.0–1.1 range" demands 0. -/
theorem get_effective_volume_no_lower_clamp :
    AudioTrack.get_effective_volume ⟨"t", -1, "t", 0, false, false⟩ ≠
      spec_effective_volume ⟨"t", -1, "t", 0, false, false⟩ := by
  have h1 : ((-1 : Rat)) ≤ 11 / 10 := by norm_num
  simp only [AudioTrack.get_effective_volume, spec_effective_volume,
    Bool.false_eq_true, ite_false, min_eq_left h1]
  rw [max_eq_left (by norm_num : ((-1 : Rat)) ≤ 0)]
  norm_num

/-- Claim C5 (amended): the effective volume — in the read accessor and in the
audio-branch volume nodes alike — is 0 when muted regardless of the stored
value, and otherwise the stored volume clamped from above at 1.1 (values below
0 pass through unclamped); stored 1.5 unmuted gives 1.1, muted gives 0. -/
theorem effective_volume_amended (t : AudioTrack) (tracks : List AudioTrack)
    (base i : Nat) (h : i < tracks.length) :
    (t.mute = true → t.get_effective_volume = 0)
    ∧ (t.mute = false → t.get_effective_volume = min t.volume (11/10)
        ∧ t.get_effective_volume ≤ 11/10)
    ∧ (audio_norm_parts base 0 tracks).get? i =
        some (volume_part (base + i) ((tracks.get ⟨i, h⟩).get_effective_volume) i)
    ∧ AudioTrack.get_effective_volume ⟨"t", 3/2, "t", 0, false, false⟩ = 11/10
    ∧ AudioTrack.get_effective_volume ⟨"t", 3/2, "t", 0, true, false⟩ = 0 := by
  refine ⟨?_, ?_, ?_, ?_, ?_⟩
  · intro hm; simp [AudioTrack.get_effective_volume, hm]
  · intro hm
    refine ⟨by simp [AudioTrack.get_effective_volume, hm], ?_⟩
    simp [AudioTrack.get_effective_volume, hm]
  · simpa using audio_norm_parts_get base tracks 0 i h
  · have h32 : ¬ ((3 / 2 : Rat) ≤ 11 / 10) := by norm_num
    simp [AudioTrack.get_effective_volume, min_def, h32]
  · simp [AudioTrack.get_effective_volume]

/-- Helper: the normalization prefix of the video branch has two nodes per clip. -/
theorem video_norm_parts_length (n : Nat) : (video_norm_parts n).length = 2 * n := by
  induction n with
  | zero => rfl
  | succ m ih => simp [video_norm_parts, ih]; omega

/-- Helper: the volume-node prefix of the audio branch has one node per track. -/
theorem audio_norm_parts_length (base : Nat) :
    ∀ (tracks : List AudioTrack) (i0 : Nat),
      (audio_norm_parts base i0 tracks).length = tracks.length := by
  intro tracks
  induction tracks with
  | nil => intro i0; rfl
  | cons t ts ih => intro i0; simp [audio_norm_parts, ih]

/-- Helper: the `k`-th folded pair of the video branch (video transition and
audio leg) carries clip index `j0 + k`, the chained previous tags, and the
offset `max (acc_k - c) 0` where `acc_k` accumulates `max (duration - c) 0`
over the previously folded clips. -/
theorem videoFold_get (c : Rat) :
    ∀ (rest : List VideoClip) (j0 : Nat) (acc : Rat) (pv pa : String) (k : Nat),
      k < rest.length →
      (videoFold c j0 acc pv pa rest).1.get? (2 * k) =
        some (xfade_part (if k = 0 then pv else "vx" ++ toString (j0 + k - 1))
          (j0 + k) c
          (max (spec_acc c acc ((rest.take k).map VideoClip.duration) - c) 0))
      ∧ (videoFold c j0 acc pv pa rest).1.get? (2 * k + 1) =
        some (across_part_v (if k = 0 then pa else "vax" ++ toString (j0 + k - 1))
          (j0 + k) c) := by
  intro rest
  induction rest with
  | nil => intro j0 acc pv pa k h; simp at h
  | cons r rs ih =>
    intro j0 acc pv pa k h
    cases k with
    | zero =>
      constructor
      · simp [videoFold, spec_acc]
      · simp [videoFold]
    | succ k' =>
      have h' : k' < rs.length := by simpa using h
      have IH := ih (j0 + 1) (acc + max (r.duration - c) 0)
        ("vx" ++ toString j0) ("vax" ++ toString j0) k' h'
      have tagv : (if k' = 0 then "vx" ++ toString j0
          else "vx" ++ toString (j0 + 1 + k' - 1)) = "vx" ++ toString (j0 + 1 + k' - 1) := by
        cases k' <;> simp
      have taga : (if k' = 0 then "vax" ++ toString j0
          else "vax" ++ toString (j0 + 1 + k' - 1)) = "vax" ++ toString (j0 + 1 + k' - 1) := by
        cases k' <;> simp
      rw [tagv, taga] at IH
      have e2 : ((r :: rs).take (k' + 1)).map VideoClip.duration
          = r.duration :: (rs.take k').map VideoClip.duration := by simp
      have e3 : spec_acc c acc (r.duration :: (rs.take k').map VideoClip.duration)
          = spec_acc c (acc + max (r.duration - c) 0) ((rs.take k').map VideoClip.duration) := rfl
      have e4 : j0 + (k' + 1) - 1 = j0 + 1 + k' - 1 := by omega
      have e5 : j0 + (k' + 1) = j0 + 1 + k' := by omega
      have en1 : 2 * (k' + 1) = 2 * k' + 1 + 1 := by ring
      have en2 : 2 * (k' + 1) + 1 = (2 * k' + 1) + 1 + 1 := by ring
      constructor
      · show (xfade_part pv j0 c (max (acc - c) 0) :: across_part_v pa j0 c ::
            (videoFold c (j0 + 1) (acc + max (r.duration - c) 0)
              ("vx" ++ toString j0) ("vax" ++ toString j0) rs).1).get? (2 * (k' + 1)) = _
        rw [en1]
        simp only [List.get?_cons_succ]
        rw [if_neg (Nat.succ_ne_zero k'), e2, e3, e4, e5]
        exact IH.1
      · show (xfade_part pv j0 c (max (acc - c) 0) :: across_part_v pa j0 c ::
            (videoFold c (j0 + 1) (acc + max (r.duration - c) 0)
              ("vx" ++ toString j0) ("vax" ++ toString j0) rs).1).get? (2 * (k' + 1) + 1) = _
        rw [en2]
        simp only [List.get?_cons_succ]
        rw [if_neg (Nat.succ_ne_zero k'), e4, e5]
        exact IH.2

/-- Claim C1: for more than one clip, the video branch places clip `j`'s
cross-transition (`1 ≤ j < n`) at offset `max (acc - c) 0`, where the running
total `acc` starts at clip 0's duration and accumulates `max (duration - c) 0`
per previously folded clip; the fold is left-to-right in clip order (the
transition for clip `j` consumes the tag produced for clip `j - 1`), and the
clips' audio legs are folded at the matching position with the same
equal-power (`qsin`/`qsin`) crossfade of the same duration. -/
theorem video_crossfade_offsets (c0 : VideoClip) (rest : List VideoClip) (c : Rat)
    (j : Nat) (h1 : 1 ≤ j) (h2 : j ≤ rest.length) :
    ∃ ps vt at',
      video_filter_parts (c0 :: rest) c = some (ps, vt, at')
      ∧ ps.get? (2 * (rest.length + 1) + 2 * (j - 1)) =
          some (xfade_part (if j = 1 then "v0" else "vx" ++ toString (j - 1)) j c
            (max (spec_acc c c0.duration ((rest.take (j - 1)).map VideoClip.duration) - c) 0))
      ∧ ps.get? (2 * (rest.length + 1) + 2 * (j - 1) + 1) =
          some (across_part_v (if j = 1 then "va0" else "vax" ++ toString (j - 1)) j c) := by
  cases rest with
  | nil => simp at h2; omega
  | cons r1 rs =>
    have h2' : j ≤ rs.length + 1 := by simpa using h2
    refine ⟨video_norm_parts ((r1 :: rs).length + 1)
      ++ (videoFold c 1 c0.duration "v0" "va0" (r1 :: rs)).1, _, _, rfl, ?_, ?_⟩
    · rw [List.get?_append_right (by simp [video_norm_parts_length])]
      have ei : 2 * ((r1 :: rs).length + 1) + 2 * (j - 1)
          - (video_norm_parts ((r1 :: rs).length + 1)).length = 2 * (j - 1) := by
        simp [video_norm_parts_length]
      rw [ei]
      have hk : j - 1 < (r1 :: rs).length := by simp; omega
      have L := (videoFold_get c (r1 :: rs) 1 c0.duration "v0" "va0" (j - 1) hk).1
      have ej : 1 + (j - 1) = j := by omega
      rw [ej] at L
      have etag : (if j - 1 = 0 then "v0" else "vx" ++ toString (j - 1))
          = (if j = 1 then "v0" else "vx" ++ toString (j - 1)) := by
        by_cases hj : j = 1
        · simp [hj]
        · have hne : j - 1 ≠ 0 := by omega
          simp [hj, hne]
      rw [etag] at L
      exact L
    · rw [List.get?_append_right (by simp [video_norm_parts_length]; omega)]
      have ei : 2 * ((r1 :: rs).length + 1) + 2 * (j - 1) + 1
          - (video_norm_parts ((r1 :: rs).length + 1)).length = 2 * (j - 1) + 1 := by
        simp [video_norm_parts_length]
        omega
      rw [ei]
      have hk : j - 1 < (r1 :: rs).length := by simp; omega
      have L := (videoFold_get c (r1 :: rs) 1 c0.duration "v0" "va0" (j - 1) hk).2
      have ej : 1 + (j - 1) = j := by omega
      rw [ej] at L
      have etag : (if j - 1 = 0 then "va0" else "vax" ++ toString (j - 1))
          = (if j = 1 then "va0" else "vax" ++ toString (j - 1)) := by
        by_cases hj : j = 1
        · simp [hj]
        · have hne : j - 1 ≠ 0 := by omega
          simp [hj, hne]
      rw [etag] at L
      exact L

/-- Helper: the `k`-th crossfade node of the audio fold merges the chained
previous tag into `ma (j0+k)` producing `mx (j0+k)`. -/
theorem audioFold_get (d : Int) :
    ∀ (cnt : Nat) (prev : String) (j0 k : Nat), k < cnt →
      (audioFold d prev j0 cnt).1.get? k =
        some (across_part_a (if k = 0 then prev else "mx" ++ toString (j0 + k - 1))
          (j0 + k) d) := by
  intro cnt
  induction cnt with
  | zero => intro prev j0 k h; omega
  | succ n ih =>
    intro prev j0 k h
    cases k with
    | zero => simp [audioFold]
    | succ k' =>
      have h' : k' < n := by omega
      have IH := ih ("mx" ++ toString j0) (j0 + 1) k' h'
      have tag : (if k' = 0 then "mx" ++ toString j0
          else "mx" ++ toString (j0 + 1 + k' - 1)) = "mx" ++ toString (j0 + 1 + k' - 1) := by
        cases k' <;> simp
      rw [tag] at IH
      show (across_part_a prev j0 d
        :: (audioFold d ("mx" ++ toString j0) (j0 + 1) n).1).get? (k' + 1) = _
      simp only [List.get?_cons_succ]
      rw [if_neg (Nat.succ_ne_zero k')]
      have e4 : j0 + (k' + 1) - 1 = j0 + 1 + k' - 1 := by omega
      have e5 : j0 + (k' + 1) = j0 + 1 + k' := by omega
      rw [e4, e5]
      exact IH

/-- Helper: after at least one fold step, the final `prev` tag of the audio
fold is `mx` of the last folded index. -/
theorem audioFold_final (d : Int) :
    ∀ (cnt : Nat) (prev : String) (j0 : Nat), 1 ≤ cnt →
      (audioFold d prev j0 cnt).2 = "mx" ++ toString (j0 + cnt - 1) := by
  intro cnt
  induction cnt with
  | zero => intro _ _ h; omega
  | succ n ih =>
    intro prev j0 _
    by_cases hn : 1 ≤ n
    · have IH := ih ("mx" ++ toString j0) (j0 + 1) hn
      show (audioFold d ("mx" ++ toString j0) (j0 + 1) n).2 = _
      rw [IH]
      have e : j0 + 1 + n - 1 = j0 + (n + 1) - 1 := by omega
      rw [e]
    · have hn0 : n = 0 := by omega
      subst hn0
      show (audioFold d ("mx" ++ toString j0) (j0 + 1) 0).2 = _
      simp [audioFold]

/-- Claim C7 (counterexample): with a configured audio crossfade of 21/2 = 10.5
seconds, the fold node emitted for two active tracks carries duration parameter
10 (the `as i32` truncation), not the configured 10.5 the claim requires. -/
theorem audio_crossfade_truncation_counterexample :
    ((⟨21, 2, by decide, by decide⟩ : Rat) = 21 / 2)
    ∧ (bec_audio_parts
        ⟨[⟨"a.mp4", "a", 5⟩],
         [⟨"t1", 1, "t1", 30, false, false⟩, ⟨"t2", 1, "t2", 30, false, false⟩],
         ⟨true, true, ⟨21, 2, by decide, by decide⟩, 1, false, 100, 70, true,
          "balanced"⟩⟩).1.get? 2 =
      some "[ma0][ma1]acrossfade=d=10:c1=qsin:c2=qsin[mx1]"
    ∧ ("[ma0][ma1]acrossfade=d=10:c1=qsin:c2=qsin[mx1]" : String) ≠
      "[ma0][ma1]acrossfade=d="
        ++ toString (⟨21, 2, by decide, by decide⟩ : Rat)
        ++ ":c1=qsin:c2=qsin[mx1]" := by
  refine ⟨?_, rfl, by decide⟩
  rw [Rat.mk'_eq_divInt, Rat.divInt_eq_div]
  norm_num

/-- Claim C7 (amended): for more than one active track, the audio branch folds
the per-track volume nodes pairwise left-to-right preserving source order —
the `j`-th fold node (at position `n + (j-1)` after the `n` volume nodes)
merges the chained previous tag into `ma j` producing `mx j`, with an
equal-power (`qsin`/`qsin`) crossfade on both legs — and its duration parameter
is the configured audio crossfade duration truncated toward zero to a whole
number of seconds (`as i32`), equal to the configured value whenever that value
is integral; the terminal tag is `mx (n-1)`. -/
theorem audio_crossfade_fold_amended (p : Project) (j : Nat)
    (h1 : 1 ≤ j) (h2 : j < (bec_active_tracks p).length) :
    (bec_audio_parts p).1.get? ((bec_active_tracks p).length + (j - 1)) =
      some (across_part_a (if j = 1 then "ma0" else "mx" ++ toString (j - 1)) j
        (f64_as_i32 p.settings.audio_crossfade))
    ∧ (bec_audio_parts p).2 =
      "[mx" ++ toString ((bec_active_tracks p).length - 1) ++ "]" := by
  have hn2 : 2 ≤ (bec_active_tracks p).length := by omega
  have hne1 : ((bec_active_tracks p).length == 1) = false := by
    simp only [beq_eq_false_iff_ne, ne_eq]
    omega
  unfold bec_audio_parts audio_filter_parts
  rw [hne1]
  simp only [Bool.false_eq_true, ite_false]
  constructor
  · rw [List.get?_append_right (by rw [audio_norm_parts_length]; omega)]
    have ei : (bec_active_tracks p).length + (j - 1)
        - (audio_norm_parts p.videos.length 0 (bec_active_tracks p)).length
        = j - 1 := by
      rw [audio_norm_parts_length]
      omega
    rw [ei]
    have hk : j - 1 < (bec_active_tracks p).length - 1 := by omega
    have L := audioFold_get (f64_as_i32 p.settings.audio_crossfade)
      ((bec_active_tracks p).length - 1) "ma0" 1 (j - 1) hk
    have ej : 1 + (j - 1) = j := by omega
    rw [ej] at L
    have etag : (if j - 1 = 0 then "ma0" else "mx" ++ toString (j - 1))
        = (if j = 1 then "ma0" else "mx" ++ toString (j - 1)) := by
      by_cases hj : j = 1
      · simp [hj]
      · have hne : j - 1 ≠ 0 := by omega
        simp [hj, hne]
    rw [etag] at L
    exact L
  · have L := audioFold_final (f64_as_i32 p.settings.audio_crossfade)
      ((bec_active_tracks p).length - 1) "ma0" 1 (by omega)
    rw [L]
    have e : 1 + ((bec_active_tracks p).length - 1) - 1
        = (bec_active_tracks p).length - 1 := by omega
    rw [e]
    rfl

/-- Helper: the probe scan returns the first candidate, in list order, that is
both advertised and passes its synthetic probe. -/
theorem scan_checks_find (env : GpuEnv) :
    ∀ l : List (String × String),
      (scan_checks env l).1 =
        (l.find? (fun ge => env.encoders.contains ge.2 && env.test_ok ge.2 ge.1)).map
          Prod.fst := by
  intro l
  induction l with
  | nil => rfl
  | cons ge rest ih =>
    by_cases hc : env.encoders.contains ge.2
    · by_cases ht : env.test_ok ge.2 ge.1
      · have hl : scan_checks env (ge :: rest) = (some ge.1, 1) := by
          simp only [scan_checks]
          rw [if_pos hc, if_pos ht]
        rw [hl, List.find?_cons_of_pos _ (by simp only [hc, ht, Bool.and_self])]
        rfl
      · have ht' : env.test_ok ge.2 ge.1 = false := by simpa using ht
        have hl : scan_checks env (ge :: rest)
            = ((scan_checks env rest).1, (scan_checks env rest).2 + 1) := by
          simp only [scan_checks]
          rw [if_pos hc, if_neg (by rw [ht']; exact Bool.false_ne_true)]
        rw [hl, List.find?_cons_of_neg _ (by simp only [hc, ht', Bool.true_and]; simp)]
        exact ih
    · have hc' : env.encoders.contains ge.2 = false := by simpa using hc
      have hl : scan_checks env (ge :: rest) = scan_checks env rest := by
        simp only [scan_checks]
        rw [if_neg (by rw [hc']; exact Bool.false_ne_true)]
      rw [hl, List.find?_cons_of_neg _ (by simp only [hc', Bool.false_and]; simp)]
      exact ih

/-- Helper: a second detection call (from any cache state satisfying the code's
reachable-state invariant) returns the first call's result, leaves the state
unchanged and runs zero probes. -/
theorem detect_gpu_encoder_stable (env : GpuEnv) (s : FFmpegProcessor)
    (hs : s.gpu_checked = false → s.available_gpu_encoder = none) :
    detect_gpu_encoder env (detect_gpu_encoder env s).2.1
      = ((detect_gpu_encoder env s).1, (detect_gpu_encoder env s).2.1, 0) := by
  by_cases hch : s.gpu_checked
  · simp [detect_gpu_encoder, hch]
  · have hav := hs (by simpa using hch)
    by_cases hl : env.list_ok
    · cases hscan : (scan_checks env gpu_checks).1 with
      | some g => simp [detect_gpu_encoder, hch, hl, hscan]
      | none => simp [detect_gpu_encoder, hch, hl, hscan, hav]
    · simp [detect_gpu_encoder, hch, hl, hav]

/-- Claim C6: from a fresh cache state, the first detection call scans the
fixed priority order nvidia, intel, amd, vaapi and returns the first family
that is advertised and whose synthetic probe succeeds (`none` if
`ffmpeg -encoders` failed); a subsequent call returns the identical memoized
result with the identical state and zero probe invocations; and when every
candidate fails, the result is the ordinary value `none` — the same shape as a
success, not an error. -/
theorem detect_gpu_encoder_memoized (env : GpuEnv) (s : FFmpegProcessor)
    (h1 : s.gpu_checked = false) (h2 : s.available_gpu_encoder = none) :
    ((detect_gpu_encoder env s).1 =
      if env.list_ok then
        (gpu_checks.find? (fun ge =>
          env.encoders.contains ge.2 && env.test_ok ge.2 ge.1)).map Prod.fst
      else none)
    ∧ detect_gpu_encoder env (detect_gpu_encoder env s).2.1
        = ((detect_gpu_encoder env s).1, (detect_gpu_encoder env s).2.1, 0)
    ∧ ((∀ ge ∈ gpu_checks,
          (env.encoders.contains ge.2 && env.test_ok ge.2 ge.1) = false) →
        (detect_gpu_encoder env s).1 = none) := by
  have hfind : (detect_gpu_encoder env s).1 =
      if env.list_ok then
        (gpu_checks.find? (fun ge =>
          env.encoders.contains ge.2 && env.test_ok ge.2 ge.1)).map Prod.fst
      else none := by
    by_cases hl : env.list_ok
    · rw [if_pos hl, ← scan_checks_find env gpu_checks]
      cases hscan : (scan_checks env gpu_checks).1 with
      | some g => simp [detect_gpu_encoder, h1, hl, hscan]
      | none => simp [detect_gpu_encoder, h1, hl, hscan]
    · simp [detect_gpu_encoder, h1, hl]
  refine ⟨hfind, detect_gpu_encoder_stable env s (fun _ => h2), ?_⟩
  intro hall
  rw [hfind]
  have hnone : gpu_checks.find? (fun ge =>
      env.encoders.contains ge.2 && env.test_ok ge.2 ge.1) = none :=
    List.find?_eq_none.mpr (fun x hx hcontra => by
      have hc2 : (env.encoders.contains x.2 && env.test_ok x.2 x.1) = true := hcontra
      rw [hall x hx] at hc2
      exact Bool.false_ne_true hc2)
  rw [hnone]
  simp

/-- Claim C10: with a fixed environment, project, output path, preview
override, use-hardware flag and preset, calling the command synthesizer twice
in succession — the second call starting from the cache state the first call
left behind — produces identical argument vectors, for every cache state
satisfying the code's reachable-state invariant (an unchecked cache holds no
encoder). -/
theorem build_export_command_idempotent (env : GpuEnv) (s : FFmpegProcessor)
    (project : Project) (output_path : String) (preview_seconds : Option Int)
    (use_gpu : Bool) (speed_preset : String)
    (hs : s.gpu_checked = false → s.available_gpu_encoder = none) :
    (build_export_command env s project output_path preview_seconds use_gpu
      speed_preset).1
      = (build_export_command env
          (build_export_command env s project output_path preview_seconds use_gpu
            speed_preset).2
          project output_path preview_seconds use_gpu speed_preset).1 := by
  unfold build_export_command
  by_cases hg : use_gpu
  · simp only [hg, if_true]
    rw [detect_gpu_encoder_stable env s hs]
  · simp [hg]

/-- Helper: the hardware pre-input flags never contain an input flag. -/
theorem hw_flags_no_input_flag (g : Option String) : "-i" ∉ hw_flags g := by
  cases g with
  | none => simp [hw_flags]
  | some gt =>
    show "-i" ∉ (if gt = "nvidia" then ["-hwaccel", "cuda"]
      else if gt = "intel" then ["-hwaccel", "qsv"]
      else if gt = "vaapi" then ["-vaapi_device", "/dev/dri/renderD128"] else [])
    split_ifs <;> decide

/-- Helper: for an index below the track count, the audio branch's part list
starts with the per-track volume nodes. -/
theorem audio_filter_parts_volume_node (tracks : List AudioTrack) (d : Int)
    (base : Nat) (i : Nat) (hi : i < tracks.length) :
    (audio_filter_parts tracks d base).1.get? i =
      some (volume_part (base + i) ((tracks.get ⟨i, hi⟩).get_effective_volume) i) := by
  by_cases h1 : tracks.length == 1
  · simp only [audio_filter_parts, h1, if_true]
    simpa using audio_norm_parts_get base tracks 0 i hi
  · have h1' : (tracks.length == 1) = false := by simpa using h1
    simp only [audio_filter_parts, h1', Bool.false_eq_true, if_false]
    rw [List.get?_append (by rw [audio_norm_parts_length]; exact hi)]
    simpa using audio_norm_parts_get base tracks 0 i hi

/-- Claim C8: every produced argument vector consists of a fixed prefix
(program name, overwrite flag, hardware flags — none of which is an input
flag) followed by one `-i path` pair per video clip and then one `-i path`
pair per active audio track, in that order, so clip inputs occupy engine input
indices `[0, videoCount)` and track inputs `[videoCount, videoCount +
trackCount)`; the audio branch's volume node for track `i` reads exactly input
`videoCount + i`. -/
theorem export_command_input_order (env : GpuEnv) (s : FFmpegProcessor)
    (project : Project) (output_path : String) (preview_seconds : Option Int)
    (use_gpu : Bool) (speed_preset : String) (cmd : List String)
    (h : (build_export_command env s project output_path preview_seconds use_gpu
      speed_preset).1 = some cmd) :
    ∃ g tail,
      (cmd = ["ffmpeg", "-y"] ++ hw_flags g
        ++ project.videos.flatMap (fun v => ["-i", v.path])
        ++ (bec_active_tracks project).flatMap (fun t => ["-i", t.path]) ++ tail)
      ∧ "-i" ∉ ["ffmpeg", "-y"] ++ hw_flags g
      ∧ ∀ i (hi : i < (bec_active_tracks project).length),
          (bec_audio_parts project).1.get? i =
            some (volume_part (project.videos.length + i)
              (((bec_active_tracks project).get ⟨i, hi⟩).get_effective_volume) i) := by
  simp only [build_export_command, build_cmd_pure] at h
  cases hv : video_filter_parts project.videos project.settings.video_crossfade with
  | none => rw [hv] at h; simp at h
  | some vres =>
    rw [hv] at h
    simp only [Option.some.injEq] at h
    refine ⟨(if use_gpu then detect_gpu_encoder env s else (none, s, 0)).1,
      bec_tail_args project output_path preview_seconds speed_preset
        (if use_gpu then detect_gpu_encoder env s else (none, s, 0)).1 vres,
      h.symm, ?_, ?_⟩
    · intro hmem
      rcases List.mem_append.mp hmem with h2 | h2
      · exact absurd h2 (by decide)
      · exact hw_flags_no_input_flag _ h2
    · intro i hi
      exact audio_filter_parts_volume_node (bec_active_tracks project)
        (f64_as_i32 project.settings.audio_crossfade) project.videos.length i hi

/-- Claim C9 (counterexample): for a Project with zero videos and zero audio
tracks no export command can be produced at all — the video filter builder
evaluates `clips[0]` on the empty clip list and panics (modelled as `none`),
contradicting the claim's "can be produced without out-of-bounds indexing". -/
theorem empty_project_build_counterexample :
    (build_export_command ⟨true, [], fun _ _ => false⟩ FFmpegProcessor.new
        ⟨[], [], ProjectSettings.default⟩ "out.mp4" none false "balanced").1 = none
    ∧ video_filter_parts [] (1 : Rat) = none
    ∧ build_video_crossfade_filter [] (1 : Rat) = none :=
  ⟨rfl, rfl, rfl⟩

/-- Claim C9 (amended): for every Project with zero videos and zero audio
tracks, the total video duration is 0, the active-track set is empty (both in
the model and in the Command Synthesizer) and no filter-graph audio branch is
emitted; however, no export command can be produced, because the video filter
builder indexes clip 0 of the empty clip list and panics (modelled as `none`). -/
theorem empty_project_amended (p : Project) (hv : p.videos = [])
    (ht : p.audio_tracks = []) :
    p.get_video_duration = 0
    ∧ p.get_active_tracks = []
    ∧ bec_active_tracks p = []
    ∧ bec_fc_audio p = ([], "")
    ∧ ∀ env s output_path preview_seconds use_gpu speed_preset,
        (build_export_command env s p output_path preview_seconds use_gpu
          speed_preset).1 = none := by
  have hbec : bec_active_tracks p = [] := by
    unfold bec_active_tracks
    rw [ht]
    simp
  refine ⟨?_, ?_, hbec, ?_, ?_⟩
  · simp [Project.get_video_duration, hv]
  · simp [Project.get_active_tracks, ht]
  · simp [bec_fc_audio, hbec]
  · intro env s op ps ug sp
    simp [build_export_command, build_cmd_pure, hv, video_filter_parts]

/-- Helper: the video filter builder succeeds exactly on non-empty clip lists. -/
theorem video_filter_parts_isSome (clips : List VideoClip) (c : Rat)
    (h : clips ≠ []) : ∃ r, video_filter_parts clips c = some r := by
  cases clips with
  | nil => exact absurd rfl h
  | cons c0 rest =>
    cases rest with
    | nil => exact ⟨_, rfl⟩
    | cons r1 rs => exact ⟨_, rfl⟩

/-- Helper: if the cancel flag reads true at some checked line index, the
progress loop returns the cancel result early, with the child killed and the
output file absent. -/
theorem export_loop_cancel (flag : Nat → Bool) (cr : ExportResult) (total : Rat) :
    ∀ (lines : List String) (i0 : Nat) (w : WorldState) (evs : List Rat),
      (∃ k, k < lines.length ∧ flag (i0 + k) = true) →
      ∃ w' evs', export_loop flag cr total i0 lines w evs = (some cr, w', evs')
        ∧ w'.output_exists = false ∧ w'.child_alive = false := by
  intro lines
  induction lines with
  | nil =>
    intro i0 w evs hex
    obtain ⟨k, hk, _⟩ := hex
    simp at hk
  | cons l ls ih =>
    intro i0 w evs hex
    obtain ⟨k, hk, hf⟩ := hex
    by_cases h0 : flag i0
    · refine ⟨if w.output_exists then { child_alive := false, output_exists := false }
          else { child_alive := false, output_exists := w.output_exists }, evs,
        ?_, ?_, ?_⟩
      · by_cases hw : w.output_exists <;> simp [export_loop, h0, hw]
      · by_cases hw : w.output_exists <;> simp [hw]
      · by_cases hw : w.output_exists <;> simp [hw]
    · have hk' : ∃ k', k' < ls.length ∧ flag (i0 + 1 + k') = true := by
        cases k with
        | zero =>
          rw [Nat.add_zero] at hf
          exact absurd hf h0
        | succ k'' =>
          refine ⟨k'', by simpa using hk, ?_⟩
          have e : i0 + 1 + k'' = i0 + (k'' + 1) := by omega
          rw [e]
          exact hf
      have h0' : flag i0 = false := by simpa using h0
      cases hp : parse_out_time l with
      | some pos =>
        have := ih (i0 + 1) w (evs ++ [progress_value total pos]) hk'
        simpa [export_loop, h0', hp] using this
      | none =>
        have := ih (i0 + 1) w evs hk'
        simpa [export_loop, h0', hp] using this

/-- Claim C3: for every export run on a non-empty clip list whose spawn
succeeded, if the cancellation flag reads true at some line boundary, the
supervisor returns a cancelled result — `cancelled = true`, `success = false`,
no error message — with the child process terminated and no output file left
at the targeted path. -/
theorem export_cancellation (env : GpuEnv) (s : FFmpegProcessor)
    (flag : Nat → Bool) (project : Project) (output_path : String)
    (use_gpu : Bool) (speed_preset : String) (lines : List String)
    (exit_ok : Bool) (exit_code : Int) (w : WorldState)
    (hvid : project.videos ≠ [])
    (hc : ∃ k, k < lines.length ∧ flag k = true) :
    ∃ r w' evs,
      (export_project env s flag project output_path use_gpu speed_preset true
        lines exit_ok exit_code w).1 = some (Except.ok (r, w', evs))
      ∧ r.cancelled = true ∧ r.success = false ∧ r.error = none
      ∧ w'.output_exists = false ∧ w'.child_alive = false := by
  obtain ⟨vres, hv⟩ := video_filter_parts_isSome project.videos
    project.settings.video_crossfade hvid
  have hc0 : ∃ k, k < lines.length ∧ flag (0 + k) = true := by
    obtain ⟨k, hk, hf⟩ := hc
    exact ⟨k, hk, by simpa using hf⟩
  obtain ⟨w', evs', hl, ho, hca⟩ := export_loop_cancel flag
    { success := false, cancelled := true, error := none,
      encoder := some (encoder_name
        (if use_gpu then detect_gpu_encoder env s else (none, s, 0)).1),
      gpu_accelerated :=
        (if use_gpu then detect_gpu_encoder env s else (none, s, 0)).1.isSome }
    (project.get_video_duration * 1000) lines 0
    { w with child_alive := true } [] hc0
  refine ⟨?_, w', evs', ?_, ?_, ?_, ?_, ho, hca⟩
  · exact { success := false, cancelled := true, error := none,
            encoder := some (encoder_name
              (if use_gpu then detect_gpu_encoder env s else (none, s, 0)).1),
            gpu_accelerated :=
              (if use_gpu then detect_gpu_encoder env s else (none, s, 0)).1.isSome }
  · simp only [export_project, build_export_command, build_cmd_pure, hv, hl]
    simp
  · rfl
  · rfl
  · rfl

/-- Witness: the C1 offset theorem at three concrete clips (5s, 7s, 4s) with a
2s crossfade, at the second transition. -/
theorem video_crossfade_offsets_witness :
    1 ≤ 2 ∧ 2 ≤ [(⟨"b.mp4", "b", 7⟩ : VideoClip), ⟨"c.mp4", "c", 4⟩].length
    ∧ ∃ ps vt at',
        video_filter_parts
          (⟨"a.mp4", "a", 5⟩ :: [(⟨"b.mp4", "b", 7⟩ : VideoClip), ⟨"c.mp4", "c", 4⟩]) 2
          = some (ps, vt, at')
        ∧ ps.get? (2 * ([(⟨"b.mp4", "b", 7⟩ : VideoClip), ⟨"c.mp4", "c", 4⟩].length + 1)
            + 2 * (2 - 1)) =
            some (xfade_part (if 2 = 1 then "v0" else "vx" ++ toString (2 - 1)) 2 2
              (max (spec_acc 2 (⟨"a.mp4", "a", 5⟩ : VideoClip).duration
                (([(⟨"b.mp4", "b", 7⟩ : VideoClip), ⟨"c.mp4", "c", 4⟩].take (2 - 1)).map
                  VideoClip.duration) - 2) 0))
        ∧ ps.get? (2 * ([(⟨"b.mp4", "b", 7⟩ : VideoClip), ⟨"c.mp4", "c", 4⟩].length + 1)
            + 2 * (2 - 1) + 1) =
            some (across_part_v (if 2 = 1 then "va0" else "vax" ++ toString (2 - 1)) 2 2) :=
  ⟨by decide, by decide,
    video_crossfade_offsets ⟨"a.mp4", "a", 5⟩ [⟨"b.mp4", "b", 7⟩, ⟨"c.mp4", "c", 4⟩] 2 2
      (by decide) (by decide)⟩

/-- Witness: the C3 cancellation theorem on a one-clip project, a flag already
set at the first line boundary, and an existing output file. -/
theorem export_cancellation_witness :
    (⟨[⟨"a.mp4", "a", 5⟩], [], ProjectSettings.default⟩ : Project).videos ≠ []
    ∧ (∃ k, k < ["out_time_ms=100"].length ∧ (fun _ : Nat => true) k = true)
    ∧ ∃ r w' evs,
        (export_project ⟨true, [], fun _ _ => false⟩ FFmpegProcessor.new
          (fun _ => true) ⟨[⟨"a.mp4", "a", 5⟩], [], ProjectSettings.default⟩
          "out.mp4" false "balanced" true ["out_time_ms=100"] true 0
          ⟨false, true⟩).1 = some (Except.ok (r, w', evs))
        ∧ r.cancelled = true ∧ r.success = false ∧ r.error = none
        ∧ w'.output_exists = false ∧ w'.child_alive = false :=
  ⟨by simp, ⟨0, by decide, rfl⟩,
    export_cancellation ⟨true, [], fun _ _ => false⟩ FFmpegProcessor.new
      (fun _ => true) ⟨[⟨"a.mp4", "a", 5⟩], [], ProjectSettings.default⟩
      "out.mp4" false "balanced" ["out_time_ms=100"] true 0 ⟨false, true⟩
      (by simp) ⟨0, by decide, rfl⟩⟩

/-- Witness: the C5 amended theorem at a muted track with stored volume 5 and a
one-track node list with base input index 3. -/
theorem effective_volume_amended_witness :
    0 < [(⟨"u", 1, "u", 7, false, false⟩ : AudioTrack)].length
    ∧ (((⟨"m", 5, "m", 9, true, false⟩ : AudioTrack).mute = true →
          (⟨"m", 5, "m", 9, true, false⟩ : AudioTrack).get_effective_volume = 0)
      ∧ ((⟨"m", 5, "m", 9, true, false⟩ : AudioTrack).mute = false →
          (⟨"m", 5, "m", 9, true, false⟩ : AudioTrack).get_effective_volume
            = min (⟨"m", 5, "m", 9, true, false⟩ : AudioTrack).volume (11/10)
          ∧ (⟨"m", 5, "m", 9, true, false⟩ : AudioTrack).get_effective_volume ≤ 11/10)
      ∧ (audio_norm_parts 3 0 [⟨"u", 1, "u", 7, false, false⟩]).get? 0 =
          some (volume_part (3 + 0)
            (([(⟨"u", 1, "u", 7, false, false⟩ : AudioTrack)].get
              ⟨0, by decide⟩).get_effective_volume) 0)
      ∧ AudioTrack.get_effective_volume ⟨"t", 3/2, "t", 0, false, false⟩ = 11/10
      ∧ AudioTrack.get_effective_volume ⟨"t", 3/2, "t", 0, true, false⟩ = 0) :=
  ⟨by decide, effective_volume_amended ⟨"m", 5, "m", 9, true, false⟩
    [⟨"u", 1, "u", 7, false, false⟩] 3 0 (by decide)⟩

/-- Witness: the C6 memoization theorem on a host advertising only `h264_qsv`
with a succeeding probe: the first call resolves intel, the second is a no-op. -/
theorem detect_gpu_encoder_memoized_witness :
    FFmpegProcessor.new.gpu_checked = false
    ∧ FFmpegProcessor.new.available_gpu_encoder = none
    ∧ (((detect_gpu_encoder ⟨true, ["h264_qsv"], fun e _ => e == "h264_qsv"⟩
          FFmpegProcessor.new).1 = some "intel")
      ∧ detect_gpu_encoder ⟨true, ["h264_qsv"], fun e _ => e == "h264_qsv"⟩
          (detect_gpu_encoder ⟨true, ["h264_qsv"], fun e _ => e == "h264_qsv"⟩
            FFmpegProcessor.new).2.1
        = ((detect_gpu_encoder ⟨true, ["h264_qsv"], fun e _ => e == "h264_qsv"⟩
              FFmpegProcessor.new).1,
           (detect_gpu_encoder ⟨true, ["h264_qsv"], fun e _ => e == "h264_qsv"⟩
              FFmpegProcessor.new).2.1, 0)
      ∧ ((∀ ge ∈ gpu_checks,
            ((⟨true, ["h264_qsv"], fun e _ => e == "h264_qsv"⟩ : GpuEnv).encoders.contains
                ge.2
              && (⟨true, ["h264_qsv"], fun e _ => e == "h264_qsv"⟩ : GpuEnv).test_ok
                ge.2 ge.1) = false) →
          (detect_gpu_encoder ⟨true, ["h264_qsv"], fun e _ => e == "h264_qsv"⟩
            FFmpegProcessor.new).1 = none)) :=
  ⟨rfl, rfl,
    detect_gpu_encoder_memoized ⟨true, ["h264_qsv"], fun e _ => e == "h264_qsv"⟩
      FFmpegProcessor.new rfl rfl⟩

/-- Witness: the C7 amended theorem on a project with three active tracks and
the default 10-second audio crossfade, at the second fold node. -/
theorem audio_crossfade_fold_amended_witness :
    1 ≤ 2
    ∧ 2 < (bec_active_tracks
        ⟨[⟨"a.mp4", "a", 5⟩],
         [⟨"t1", 1, "t1", 30, false, false⟩, ⟨"t2", 1, "t2", 30, false, false⟩,
          ⟨"t3", 1, "t3", 30, false, false⟩], ProjectSettings.default⟩).length
    ∧ ((bec_audio_parts
          ⟨[⟨"a.mp4", "a", 5⟩],
           [⟨"t1", 1, "t1", 30, false, false⟩, ⟨"t2", 1, "t2", 30, false, false⟩,
            ⟨"t3", 1, "t3", 30, false, false⟩], ProjectSettings.default⟩).1.get? 4 =
        some "[mx1][ma2]acrossfade=d=10:c1=qsin:c2=qsin[mx2]"
      ∧ (bec_audio_parts
          ⟨[⟨"a.mp4", "a", 5⟩],
           [⟨"t1", 1, "t1", 30, false, false⟩, ⟨"t2", 1, "t2", 30, false, false⟩,
            ⟨"t3", 1, "t3", 30, false, false⟩], ProjectSettings.default⟩).2 = "[mx2]") :=
  ⟨by decide, by decide,
    audio_crossfade_fold_amended
      ⟨[⟨"a.mp4", "a", 5⟩],
       [⟨"t1", 1, "t1", 30, false, false⟩, ⟨"t2", 1, "t2", 30, false, false⟩,
        ⟨"t3", 1, "t3", 30, false, false⟩], ProjectSettings.default⟩ 2
      (by decide) (by decide)⟩

/-- Witness: the C8 input-ordering theorem on a one-clip project without music. -/
theorem export_command_input_order_witness :
    ((build_export_command ⟨true, [], fun _ _ => false⟩ FFmpegProcessor.new
        ⟨[⟨"a.mp4", "a", 5⟩], [], ProjectSettings.default⟩ "out.mp4" none false
        "balanced").1 =
      some (["ffmpeg", "-y"] ++ hw_flags none
        ++ [(⟨"a.mp4", "a", 5⟩ : VideoClip)].flatMap (fun v => ["-i", v.path])
        ++ (bec_active_tracks
            ⟨[⟨"a.mp4", "a", 5⟩], [], ProjectSettings.default⟩).flatMap
            (fun t => ["-i", t.path])
        ++ bec_tail_args ⟨[⟨"a.mp4", "a", 5⟩], [], ProjectSettings.default⟩ "out.mp4"
            none "balanced" none (video_norm_parts 1, "[v0]", "[va0]")))
    ∧ ∃ g tail,
        ((["ffmpeg", "-y"] ++ hw_flags none
          ++ [(⟨"a.mp4", "a", 5⟩ : VideoClip)].flatMap (fun v => ["-i", v.path])
          ++ (bec_active_tracks
              ⟨[⟨"a.mp4", "a", 5⟩], [], ProjectSettings.default⟩).flatMap
              (fun t => ["-i", t.path])
          ++ bec_tail_args ⟨[⟨"a.mp4", "a", 5⟩], [], ProjectSettings.default⟩ "out.mp4"
              none "balanced" none (video_norm_parts 1, "[v0]", "[va0]"))
          = ["ffmpeg", "-y"] ++ hw_flags g
            ++ (⟨[⟨"a.mp4", "a", 5⟩], [], ProjectSettings.default⟩ :
                Project).videos.flatMap (fun v => ["-i", v.path])
            ++ (bec_active_tracks
                ⟨[⟨"a.mp4", "a", 5⟩], [], ProjectSettings.default⟩).flatMap
                (fun t => ["-i", t.path]) ++ tail)
        ∧ "-i" ∉ ["ffmpeg", "-y"] ++ hw_flags g
        ∧ ∀ i (hi : i < (bec_active_tracks
              ⟨[⟨"a.mp4", "a", 5⟩], [], ProjectSettings.default⟩).length),
            (bec_audio_parts
              ⟨[⟨"a.mp4", "a", 5⟩], [], ProjectSettings.default⟩).1.get? i =
              some (volume_part
                ((⟨[⟨"a.mp4", "a", 5⟩], [], ProjectSettings.default⟩ :
                    Project).videos.length + i)
                (((bec_active_tracks
                    ⟨[⟨"a.mp4", "a", 5⟩], [], ProjectSettings.default⟩).get
                  ⟨i, hi⟩).get_effective_volume) i) :=
  ⟨rfl,
    export_command_input_order ⟨true, [], fun _ _ => false⟩ FFmpegProcessor.new
      ⟨[⟨"a.mp4", "a", 5⟩], [], ProjectSettings.default⟩ "out.mp4" none false
      "balanced" _ rfl⟩

/-- Witness: the C9 amended theorem at the empty project. -/
theorem empty_project_amended_witness :
    (⟨[], [], ProjectSettings.default⟩ : Project).videos = []
    ∧ (⟨[], [], ProjectSettings.default⟩ : Project).audio_tracks = []
    ∧ ((⟨[], [], ProjectSettings.default⟩ : Project).get_video_duration = 0
      ∧ (⟨[], [], ProjectSettings.default⟩ : Project).get_active_tracks = []
      ∧ bec_active_tracks ⟨[], [], ProjectSettings.default⟩ = []
      ∧ bec_fc_audio ⟨[], [], ProjectSettings.default⟩ = ([], "")
      ∧ ∀ env s output_path preview_seconds use_gpu speed_preset,
          (build_export_command env s ⟨[], [], ProjectSettings.default⟩ output_path
            preview_seconds use_gpu speed_preset).1 = none) :=
  ⟨rfl, rfl, empty_project_amended ⟨[], [], ProjectSettings.default⟩ rfl rfl⟩

/-- Witness: the C10 idempotence theorem from a fresh cache on a one-clip
project with hardware requested but no encoder available. -/
theorem build_export_command_idempotent_witness :
    (FFmpegProcessor.new.gpu_checked = false →
      FFmpegProcessor.new.available_gpu_encoder = none)
    ∧ (build_export_command ⟨true, [], fun _ _ => false⟩ FFmpegProcessor.new
        ⟨[⟨"a.mp4", "a", 5⟩], [], ProjectSettings.default⟩ "out.mp4" none true
        "balanced").1
      = (build_export_command ⟨true, [], fun _ _ => false⟩
          (build_export_command ⟨true, [], fun _ _ => false⟩ FFmpegProcessor.new
            ⟨[⟨"a.mp4", "a", 5⟩], [], ProjectSettings.default⟩ "out.mp4" none true
            "balanced").2
          ⟨[⟨"a.mp4", "a", 5⟩], [], ProjectSettings.default⟩ "out.mp4" none true
          "balanced").1 :=
  ⟨fun _ => rfl,
    build_export_command_idempotent ⟨true, [], fun _ _ => false⟩ FFmpegProcessor.new
      ⟨[⟨"a.mp4", "a", 5⟩], [], ProjectSettings.default⟩ "out.mp4" none true
      "balanced" (fun _ => rfl)⟩
